import Mathlib

/-!
Verification of the screen-capture streaming pipeline
(`EditableImagesPlayground/Scripts/ScreenshareV3.py`, with the legacy
`Screenshare.py` where it differs).

The Python scripts are shallowly embedded: pure pixel/byte manipulations
become Lean functions on `Nat` lists, the ambient process state read by the
scripts (wall clock, global `requests` session) becomes an explicit `World`
record threaded through, and fallible code returns `Except`/tagged results.
Machine bytes are `Nat`s constrained to `< 256` where it matters.
-/

namespace Screenshare

/-- A raw RGBA raster as handled by the scripts: a PIL image of size
`width × height` whose byte buffer (`arr.tobytes()`) is row-major RGBA,
4 bytes per pixel. -/
structure Raster where
  width : Nat
  height : Nat
  pixels : List Nat
  deriving Repr, DecidableEq

/-- The dimensions computed by the downscaling branch of
`ScreenshareV3.py:94-98` (identically `Screenshare.py:33-39`):

    scale_factor = math.sqrt(max_pixels / total_pixels)
    new_w = max(1, int(img.width * scale_factor))
    new_h = max(1, int(img.height * scale_factor))

in exact arithmetic: `int(w * sqrt(b/(w*h)))` is
`⌊√(w²·b/(w·h))⌋ = Nat.sqrt ((w*w*b)/(w*h))`, since for a nonnegative
rational `q`, `⌊√q⌋ = Nat.sqrt ⌊q⌋`.  When the input already fits the
budget the dimensions are returned untouched. -/
def scaledDims (max_pixels w h : Nat) : Nat × Nat :=
  if max_pixels < w * h then
    (max 1 (Nat.sqrt ((w * w * max_pixels) / (w * h))),
     max 1 (Nat.sqrt ((h * h * max_pixels) / (w * h))))
  else
    (w, h)

/-- The whole scaling step of `ScreenshareV3.py:94-99`: resize with
`Image.LANCZOS` only when `total_pixels > max_pixels`, otherwise keep the
image object untouched.  The Lanczos resampler itself is PIL library code,
not repository code, so it is a parameter `resample` (invoked with the
target dimensions computed by `scaledDims`). -/
def scaleFrame (resample : Raster → Nat → Nat → Raster) (max_pixels : Nat)
    (img : Raster) : Raster :=
  if max_pixels < img.width * img.height then
    let d := scaledDims max_pixels img.width img.height
    resample img d.1 d.2
  else
    img

/-- The alpha normalization of `ScreenshareV3.py:30-32`
(`Screenshare.py:44-48` is the same, channel by channel):

    transparent = (arr[:, :, 3] == 0)
    arr[transparent, :3] = 0
    arr[transparent, 3] = 255

on the flat row-major RGBA byte buffer: every 4-byte pixel whose alpha
byte is 0 becomes `0,0,0,255`; all other pixels are copied untouched. -/
def alphaNormalize : List Nat → List Nat
  | r :: g :: b :: a :: rest =>
    if a = 0 then 0 :: 0 :: 0 :: 255 :: alphaNormalize rest
    else r :: g :: b :: a :: alphaNormalize rest
  | l => l

theorem alphaNormalize_length : ∀ l : List Nat, (alphaNormalize l).length = l.length
  | [] => rfl
  | [_] => rfl
  | [_, _] => rfl
  | [_, _, _] => rfl
  | r :: g :: b :: a :: rest => by
    by_cases h : a = 0 <;>
      simp [alphaNormalize, h, alphaNormalize_length rest]

theorem alphaNormalize_getD :
    ∀ (l : List Nat) (i j : Nat), 4 * i + 3 < l.length → j < 4 →
      (alphaNormalize l).getD (4 * i + j) 0 =
        if l.getD (4 * i + 3) 0 = 0 then (if j = 3 then 255 else 0)
        else l.getD (4 * i + j) 0
  | [], i, j, hi, _ => by
    simp only [List.length_nil] at hi; omega
  | [_], i, j, hi, _ => by
    simp only [List.length_cons, List.length_nil] at hi; omega
  | [_, _], i, j, hi, _ => by
    simp only [List.length_cons, List.length_nil] at hi; omega
  | [_, _, _], i, j, hi, _ => by
    simp only [List.length_cons, List.length_nil] at hi; omega
  | r :: g :: b :: a :: rest, 0, j, hi, hj => by
    rcases j with _ | _ | _ | _ | j
    · by_cases h : a = 0 <;> simp [alphaNormalize, h]
    · by_cases h : a = 0 <;> simp [alphaNormalize, h]
    · by_cases h : a = 0 <;> simp [alphaNormalize, h]
    · by_cases h : a = 0 <;> simp [alphaNormalize, h]
    · omega
  | r :: g :: b :: a :: rest, i + 1, j, hi, hj => by
    have hrest : 4 * i + 3 < rest.length := by
      simp only [List.length_cons] at hi; omega
    have ih := alphaNormalize_getD rest i j hrest hj
    have e1 : 4 * (i + 1) + j = 4 * i + j + 1 + 1 + 1 + 1 := by omega
    have e3 : 4 * (i + 1) + 3 = 4 * i + 3 + 1 + 1 + 1 + 1 := by omega
    by_cases h : a = 0
    · rw [e1, e3]
      simp only [alphaNormalize, if_pos h, List.getD_cons_succ]
      exact ih
    · rw [e1, e3]
      simp only [alphaNormalize, if_neg h, List.getD_cons_succ]
      exact ih

/-- The standard base64 alphabet used by `base64.b64encode`
(RFC 4648, table 1). -/
def b64chars : List Char :=
  ("ABCDEFGHIJKLMNOPQRSTUVWXYZabcdefghijklmnopqrstuvwxyz0123456789+/").data

/-- The character encoding a 6-bit group. -/
def b64ch (n : Nat) : Char := b64chars.getD n ('A')

/-- The 6-bit value of a base64 character (inverse alphabet lookup, as
performed by `base64.b64decode`). -/
def b64val (c : Char) : Nat :=
  if ('A') ≤ c ∧ c ≤ ('Z') then c.toNat - 65
  else if ('a') ≤ c ∧ c ≤ ('z') then c.toNat - 97 + 26
  else if ('0') ≤ c ∧ c ≤ ('9') then c.toNat - 48 + 52
  else if c = ('+') then 62
  else 63

/-- `base64.b64encode` on a byte list: each 3-byte group becomes 4 alphabet
characters; a trailing group of 2 or 1 bytes is padded with `=`. -/
def b64encode : List Nat → List Char
  | b1 :: b2 :: b3 :: rest =>
    b64ch (b1 / 4) :: b64ch ((b1 % 4) * 16 + b2 / 16) ::
      b64ch ((b2 % 16) * 4 + b3 / 64) :: b64ch (b3 % 64) :: b64encode rest
  | [b1, b2] =>
    [b64ch (b1 / 4), b64ch ((b1 % 4) * 16 + b2 / 16), b64ch ((b2 % 16) * 4), '=']
  | [b1] =>
    [b64ch (b1 / 4), b64ch ((b1 % 4) * 16), '=', '=']
  | [] => []

/-- `base64.b64decode` on a character list: each 4-character group yields
3 bytes, or 1 resp. 2 bytes when the group carries `=` padding. -/
def b64decode : List Char → List Nat
  | c1 :: c2 :: c3 :: c4 :: rest =>
    if c3 = '=' then
      [b64val c1 * 4 + b64val c2 / 16]
    else if c4 = '=' then
      [b64val c1 * 4 + b64val c2 / 16, (b64val c2 % 16) * 16 + b64val c3 / 4]
    else
      (b64val c1 * 4 + b64val c2 / 16) :: ((b64val c2 % 16) * 16 + b64val c3 / 4) ::
        ((b64val c3 % 4) * 64 + b64val c4) :: b64decode rest
  | _ => []

theorem b64val_b64ch : ∀ n, n < 64 → b64val (b64ch n) = n := by decide

theorem b64ch_ne_pad : ∀ n, n < 64 → b64ch n ≠ '=' := by decide

/-- Base64 round-trip on byte lists. -/
theorem b64decode_b64encode :
    ∀ bs : List Nat, (∀ b ∈ bs, b < 256) → b64decode (b64encode bs) = bs
  | [], _ => rfl
  | [b1], h => by
    have hb1 : b1 < 256 := h b1 (by simp)
    simp only [b64encode, b64decode, if_true]
    rw [b64val_b64ch _ (by omega), b64val_b64ch _ (by omega)]
    simp only [List.cons.injEq, and_true]
    omega
  | [b1, b2], h => by
    have hb1 : b1 < 256 := h b1 (by simp)
    have hb2 : b2 < 256 := h b2 (by simp)
    simp only [b64encode, b64decode,
      if_neg (b64ch_ne_pad ((b2 % 16) * 4) (by omega)), if_true]
    rw [b64val_b64ch _ (by omega), b64val_b64ch _ (by omega),
      b64val_b64ch _ (by omega)]
    simp only [List.cons.injEq, and_true]
    constructor <;> omega
  | b1 :: b2 :: b3 :: rest, h => by
    have hb1 : b1 < 256 := h b1 (by simp)
    have hb2 : b2 < 256 := h b2 (by simp)
    have hb3 : b3 < 256 := h b3 (by simp)
    have ih := b64decode_b64encode rest (fun b hb => h b (by simp [hb]))
    simp only [b64encode, b64decode,
      if_neg (b64ch_ne_pad ((b2 % 16) * 4 + b3 / 64) (by omega)),
      if_neg (b64ch_ne_pad (b3 % 64) (by omega))]
    rw [b64val_b64ch _ (by omega), b64val_b64ch _ (by omega),
      b64val_b64ch _ (by omega), b64val_b64ch _ (by omega), ih]
    simp only [List.cons.injEq, and_true]
    refine ⟨by omega, by omega, by omega⟩

/-- The ambient process state the scripts read or mutate through globals:
the wall clock sampled by `time.time()` (kept in milliseconds) and the
global `requests.Session` connection pool (abstracted to a counter of its
mutable state).  `capture_screen_to_json` reads only the clock and writes
nothing. -/
structure World where
  nowMillis : Nat
  sessionPool : Nat
  deriving Repr, DecidableEq

/-- Zero-pad a value below 1000 to three digits. -/
def pad3 (n : Nat) : String :=
  if n < 10 then ("00") ++ toString n
  else if n < 100 then ("0") ++ toString n
  else toString n

/-- `f"{time.time():.3f}"` (`ScreenshareV3.py:38`) for a clock reading held
in milliseconds: seconds, a dot, and exactly three decimal digits. -/
def formatTime (millis : Nat) : String :=
  toString (millis / 1000) ++ (".") ++ pad3 (millis % 1000)

/-- The `image_data` dictionary built by `capture_screen_to_json`
(`ScreenshareV3.py:40-47`): name, roblox_username, width, height, the
base64 pixel string, and the formatted timestamp. -/
structure FrameEnvelope where
  name : String
  roblox_username : String
  width : Nat
  height : Nat
  pixels : List Char
  time : String
  deriving Repr, DecidableEq

/-- One hexadecimal digit (lowercase), as produced by Python's `json`
module for `\uXXXX` escapes. -/
def hexDigit (n : Nat) : Char :=
  if n < 10 then Char.ofNat (48 + n) else Char.ofNat (87 + n)

/-- Four hex digits of a value below 65536. -/
def toHex4 (n : Nat) : List Char :=
  [hexDigit (n / 4096 % 16), hexDigit (n / 256 % 16), hexDigit (n / 16 % 16),
   hexDigit (n % 16)]

/-- The escaping `json.dumps` (default `ensure_ascii=True`) applies to one
character of a string value. -/
def jsonEscapeChar (c : Char) : List Char :=
  if c = '"' then ['\\', '"']
  else if c = '\\' then ['\\', '\\']
  else if c = '\n' then ['\\', 'n']
  else if c = '\t' then ['\\', 't']
  else if c = '\r' then ['\\', 'r']
  else if c.toNat = 8 then ['\\', 'b']
  else if c.toNat = 12 then ['\\', 'f']
  else if 32 ≤ c.toNat ∧ c.toNat < 127 then [c]
  else if c.toNat < 65536 then '\\' :: 'u' :: toHex4 c.toNat
  else
    ('\\' :: 'u' :: toHex4 (55296 + (c.toNat - 65536) / 1024)) ++
      ('\\' :: 'u' :: toHex4 (56320 + (c.toNat - 65536) % 1024))

/-- `json.dumps` of a string value: quote, escape each character, quote. -/
def jsonDumpsString (s : String) : String :=
  String.mk ('"' :: (s.data.map jsonEscapeChar).flatten ++ ['"'])

/-- `json.dumps(image_data, separators=(',', ':'))` (`ScreenshareV3.py:48`):
compact JSON with the keys in insertion order. -/
def envelopeJson (e : FrameEnvelope) : String :=
  ("\x7b\"name\":") ++ jsonDumpsString e.name ++
    (",\"roblox_username\":") ++ jsonDumpsString e.roblox_username ++
    (",\"width\":") ++ toString e.width ++
    (",\"height\":") ++ toString e.height ++
    (",\"pixels\":") ++ jsonDumpsString (String.mk e.pixels) ++
    (",\"time\":") ++ jsonDumpsString e.time ++ ("\x7d")

/-- The `image_data` value assembled by `capture_screen_to_json`
(`ScreenshareV3.py:18-47`): the buffer is alpha-normalized, base64-encoded,
and packed with the metadata and the current clock reading.  The world is
returned unchanged: the function only reads the clock. -/
def imageData (w : World) (img : Raster) (pc_name roblox_username : String) :
    FrameEnvelope × World :=
  ({ name := pc_name
     roblox_username := roblox_username
     width := img.width
     height := img.height
     pixels := b64encode (alphaNormalize img.pixels)
     time := formatTime w.nowMillis }, w)

/-- `capture_screen_to_json` (`ScreenshareV3.py:18-48`): returns the compact
JSON serialization of `image_data`. -/
def capture_screen_to_json (w : World) (img : Raster)
    (pc_name roblox_username : String) : String × World :=
  let d := imageData w img pc_name roblox_username
  (envelopeJson d.1, d.2)

/-- Outcome of one `send_request` call as observed by its caller: normal
return, the `ValueError("Unsupported HTTP method")`, or an HTTP-status
exception carrying the response status. -/
inductive SendResult where
  | success
  | rejectedByServer (status : Nat)
  | unsupportedMethod
  deriving Repr, DecidableEq

/-- `method.upper()`.  Python strings that the scripts inspect are
embedded as their character lists. -/
def pyUpper (s : List Char) : List Char := s.map Char.toUpper

/-- `requests.Response.raise_for_status()` as invoked by
`ScreenshareV3.py:63`: the requests library raises `HTTPError` exactly for
client-error (4xx) and server-error (5xx) statuses, i.e. for
`400 ≤ status < 600`, and returns normally for every other status. -/
def raise_for_status (status : Nat) : SendResult :=
  if 400 ≤ status ∧ status < 600 then .rejectedByServer status else .success

/-- `send_request` of `ScreenshareV3.py:50-63`, abstracted over the status
of the HTTP response the server produced: uppercase the method, reject
anything other than POST/PUT before any I/O, then classify the response
via `raise_for_status`. -/
def send_requestV3 (method : List Char) (status : Nat) : SendResult :=
  let m := pyUpper method
  if m = ("POST").data then raise_for_status status
  else if m = ("PUT").data then raise_for_status status
  else .unsupportedMethod

/-- `send_request` of the legacy `Screenshare.py:61-79`: same method
dispatch, but the status is classified by the explicit check
`if not (200 <= resp.status_code < 300): raise`. -/
def send_requestV1 (method : List Char) (status : Nat) : SendResult :=
  let m := pyUpper method
  if m = ("POST").data ∨ m = ("PUT").data then
    if 200 ≤ status ∧ status < 300 then .success else .rejectedByServer status
  else .unsupportedMethod

/-- A display descriptor as found in `mss().monitors`: index 0 is the
combined virtual screen, indices `1..N` are the `N` physical displays. -/
structure MonitorInfo where
  width : Nat
  height : Nat
  deriving Repr, DecidableEq

/-- How monitor selection can fail: the script's own friendly invalid-index
path, or an uncaught Python `IndexError` from the list subscript. -/
inductive CaptureError where
  | invalidDisplayIndex
  | indexError
  deriving Repr, DecidableEq

/-- The monitor validation and selection of `ScreenshareV3.py:73-78`
(identically lines 177-181):

    if monitor_num < 1 or monitor_num > len(sct.monitors):
        print(f"...between 1 and {len(sct.monitors)-1}.")
        ... abort ...
    monitor = sct.monitors[monitor_num]

The guard admits `monitor_num = len(sct.monitors)`, for which the
subscript raises `IndexError`. -/
def select_monitor (monitors : List MonitorInfo) (monitor_num : Nat) :
    Except CaptureError MonitorInfo :=
  if monitor_num < 1 ∨ monitors.length < monitor_num then
    .error .invalidDisplayIndex
  else
    match monitors[monitor_num]? with
    | some m => .ok m
    | none => .error .indexError

/-- The four raw strings `main` reads from stdin
(`ScreenshareV3.py:144-166`). -/
structure RawInputs where
  screenKey : List Char
  maxJsonInput : List Char
  monitorInput : List Char
  robloxUsername : List Char
  deriving Repr, DecidableEq

/-- The validated values `main` continues with. -/
structure Config where
  screenKey : List Char
  maxJsonBytes : Nat
  monitorNum : Nat
  robloxUsername : List Char
  deriving Repr, DecidableEq

/-- The `sys.exit(1)` paths of the input-validation section. -/
inductive ConfigError where
  | emptyScreenKey
  | invalidMaxJson
  | emptyUsername
  deriving Repr, DecidableEq

/-- Python `str.strip()`: whitespace removed from both ends. -/
def pyStrip (s : List Char) : List Char :=
  ((s.dropWhile Char.isWhitespace).reverse.dropWhile Char.isWhitespace).reverse

/-- Python `str.isdigit()`: nonempty and all digits. -/
def pyIsDigit (s : List Char) : Bool := !s.isEmpty && s.all Char.isDigit

/-- `int(...)` on a digit string. -/
def strToNat (s : List Char) : Nat :=
  s.foldl (fun n c => n * 10 + (c.toNat - 48)) 0

/-- The input-validation section of `main` (`ScreenshareV3.py:144-166`),
which runs before any thread is created:

    screen_key = input(...).strip();  empty -> exit
    max_json_input = input(...).strip();  not isdigit -> exit
    MAX_JSON_BYTES = int(max_json_input)
    monitor_num = int(monitor_input) if monitor_input.isdigit() else 1
    roblox_username = input(...).strip();  empty -> exit
-/
def mainConfig (inp : RawInputs) : Except ConfigError Config :=
  let screen_key := pyStrip inp.screenKey
  if screen_key = [] then .error .emptyScreenKey
  else
    let max_json_input := pyStrip inp.maxJsonInput
    if pyIsDigit max_json_input then
      let monitor_input := pyStrip inp.monitorInput
      let monitor_num := if pyIsDigit monitor_input then strToNat monitor_input else 1
      let roblox_username := pyStrip inp.robloxUsername
      if roblox_username = [] then .error .emptyUsername
      else .ok ⟨screen_key, strToNat max_json_input, monitor_num, roblox_username⟩
    else .error .invalidMaxJson

/-- The payload object the producer builds per frame
(`ScreenshareV3.py:103`): a dictionary with the single key `"frame"`
holding the envelope JSON string. -/
structure FramePayload where
  frame : String
  deriving Repr, DecidableEq

/-- `frame_queue.put(x, timeout=1)` on the bounded `queue.Queue(maxsize=10)`
(`ScreenshareV3.py:106-110`): if the queue is below capacity the element is
appended at the back and the call returns; if it is full the call raises
`queue.Full` after its timeout and the producer drops the frame
(`except queue.Full: pass`).  The `Bool` records whether the element was
accepted. -/
def qput (cap : Nat) (q : List α) (x : α) : List α × Bool :=
  if q.length < cap then (q ++ [x], true) else (q, false)

/-- Enqueue a whole list of elements in order, dropping as `qput` does. -/
def qputAll (cap : Nat) (q : List α) (xs : List α) : List α :=
  xs.foldl (fun acc x => (qput cap acc x).1) q

/-- The consumer's drain of the queue: `frame_queue.get` pops from the
front (FIFO), repeated until the queue is empty; the returned list is the
order in which the consumer observes the elements
(`ScreenshareV3.py:122-136`). -/
def qdrain : List α → List α
  | [] => []
  | x :: rest => x :: qdrain rest

theorem qdrain_eq (q : List α) : qdrain q = q := by
  induction q with
  | nil => rfl
  | cons x rest ih => simp [qdrain, ih]

theorem qputAll_eq (cap : Nat) (q xs : List α) :
    qputAll cap q xs = q ++ xs.take (cap - q.length) := by
  induction xs generalizing q with
  | nil => simp [qputAll]
  | cons x xs ih =>
    by_cases h : q.length < cap
    · have hq : qput cap q x = (q ++ [x], true) := by simp [qput, h]
      have e : cap - q.length = (cap - (q ++ [x]).length) + 1 := by
        simp only [List.length_append, List.length_cons, List.length_nil]
        omega
      simp only [qputAll, List.foldl_cons] at ih ⊢
      rw [hq]
      rw [ih (q ++ [x]), e, List.take_succ_cons, List.append_assoc,
        List.singleton_append]
    · have hq : qput cap q x = (q, false) := by simp [qput, h]
      have e : cap - q.length = 0 := by omega
      simp only [qputAll, List.foldl_cons] at ih ⊢
      rw [hq, ih q, e, List.take_zero, List.append_nil, List.take_zero,
        List.append_nil]

/-- One iteration of the producer's frame preparation
(`ScreenshareV3.py:80-103`): scale the captured raster to the pixel
budget, build the envelope JSON (which alpha-normalizes and encodes), and
wrap it as `{"frame": frame_json}` — all before the enqueue attempt.  The
capture happened at world state `wr.1` and produced raster `wr.2`. -/
def capture_iteration (resample : Raster → Nat → Nat → Raster)
    (max_pixels : Nat) (pc_name roblox_username : String)
    (wr : World × Raster) : FramePayload :=
  let img := scaleFrame resample max_pixels wr.2
  { frame := (capture_screen_to_json wr.1 img pc_name roblox_username).1 }

/-- `json.dumps(frame_payload, separators=(',', ':'))`: the byte body
`send_request` serializes from the payload dictionary. -/
def dumpsFramePayload (p : FramePayload) : String :=
  ("\x7b\"frame\":") ++ jsonDumpsString p.frame ++ ("\x7d")

/-- The body of the PUT request `send_frames` issues for one dequeued
payload (`ScreenshareV3.py:122-136`): the payload is handed to
`send_request` as-is, which serializes it — the consumer applies no other
transformation. -/
def send_frames_body (p : FramePayload) : String := dumpsFramePayload p

/-! ## Claims -/

/-- C8: for every input Raster whose `width*height` is already at most the
pixel budget, FrameScaler returns the input unchanged — identical width,
height and pixel buffer, with no resampling applied (the `resample`
parameter is never invoked). -/
theorem frameScaler_under_budget_id (resample : Raster → Nat → Nat → Raster)
    (max_pixels : Nat) (img : Raster)
    (h : img.width * img.height ≤ max_pixels) :
    scaleFrame resample max_pixels img = img := by
  simp only [scaleFrame]
  rw [if_neg (by omega)]

theorem frameScaler_under_budget_id_witness :
    (1 * 1 ≤ 10) ∧
    scaleFrame (fun r _ _ => r) 10 ⟨1, 1, [7, 8, 9, 255]⟩ = ⟨1, 1, [7, 8, 9, 255]⟩ :=
  ⟨by decide,
   frameScaler_under_budget_id (fun r _ _ => r) 10 ⟨1, 1, [7, 8, 9, 255]⟩ (by decide)⟩

/-- C2: AlphaNormalizer leaves the buffer length unchanged; a pixel whose
alpha byte equals 0 becomes R=G=B=0 and alpha=255, and a pixel whose alpha
byte is positive is copied byte for byte (`j` ranges over the pixel's four
channel offsets). -/
theorem alphaNormalizer_pointwise (l : List Nat) (i j : Nat)
    (hi : 4 * i + 3 < l.length) (hj : j < 4) :
    (alphaNormalize l).length = l.length ∧
    (alphaNormalize l).getD (4 * i + j) 0 =
      (if l.getD (4 * i + 3) 0 = 0 then (if j = 3 then 255 else 0)
       else l.getD (4 * i + j) 0) :=
  ⟨alphaNormalize_length l, alphaNormalize_getD l i j hi hj⟩

theorem alphaNormalizer_pointwise_witness :
    (alphaNormalize [9, 9, 9, 0, 1, 2, 3, 4]).length =
      ([9, 9, 9, 0, 1, 2, 3, 4] : List Nat).length ∧
    (alphaNormalize [9, 9, 9, 0, 1, 2, 3, 4]).getD (4 * 0 + 0) 0 =
      (if ([9, 9, 9, 0, 1, 2, 3, 4] : List Nat).getD (4 * 0 + 3) 0 = 0 then
        (if 0 = 3 then 255 else 0)
       else ([9, 9, 9, 0, 1, 2, 3, 4] : List Nat).getD (4 * 0 + 0) 0) :=
  alphaNormalizer_pointwise [9, 9, 9, 0, 1, 2, 3, 4] 0 0 (by decide) (by decide)

/-- C3 counterexample: HTTP status 304 lies outside `[200,300)`, yet
`send_request` of ScreenshareV3 returns successfully for it, because
`requests`' `raise_for_status` only raises for 4xx/5xx. -/
theorem transport_status_counterexample :
    send_requestV3 (("PUT").data) 304 = SendResult.success ∧
    ¬ (200 ≤ 304 ∧ 304 < 300) := by
  exact ⟨rfl, by decide⟩

/-- C3 amended: ScreenshareV3's `send_request` (via `raise_for_status`)
fails with `RejectedByServer status` exactly when the status is in
`[400,600)` and succeeds for every other status; the legacy
`Screenshare.py` `send_request` checks the interval explicitly and
succeeds exactly when the status is in `[200,300)`, failing with
`RejectedByServer status` otherwise. -/
theorem transport_status_classification (status : Nat) :
    (send_requestV3 (("PUT").data) status = SendResult.success ↔
      status < 400 ∨ 600 ≤ status) ∧
    (send_requestV3 (("PUT").data) status = SendResult.rejectedByServer status ↔
      400 ≤ status ∧ status < 600) ∧
    (send_requestV1 (("PUT").data) status = SendResult.success ↔
      200 ≤ status ∧ status < 300) ∧
    (send_requestV1 (("PUT").data) status = SendResult.rejectedByServer status ↔
      ¬ (200 ≤ status ∧ status < 300)) := by
  have e3 : send_requestV3 (("PUT").data) status = raise_for_status status := rfl
  have e1 : send_requestV1 (("PUT").data) status =
      (if 200 ≤ status ∧ status < 300 then SendResult.success
       else SendResult.rejectedByServer status) := rfl
  rw [e3, e1, raise_for_status]
  refine ⟨?_, ?_, ?_, ?_⟩ <;> split <;> simp_all
  all_goals omega

/-- C4 (code bug): with one physical display, `mss` exposes a monitor list
of length 2 (entry 0 is the combined virtual screen), so the valid display
indices are `[1,1]`; the script's guard `monitor_num > len(sct.monitors)`
nevertheless admits index 2, whose subscript then raises an uncaught
`IndexError` instead of the friendly invalid-display path the guard (and
its own error message `between 1 and 1`) promises.  Indices 0 and 1 behave
as claimed. -/
theorem capture_invalid_index_code_bug :
    select_monitor [⟨1920, 1080⟩, ⟨1920, 1080⟩] 2 =
      Except.error CaptureError.indexError ∧
    select_monitor [⟨1920, 1080⟩, ⟨1920, 1080⟩] 0 =
      Except.error CaptureError.invalidDisplayIndex ∧
    select_monitor [⟨1920, 1080⟩, ⟨1920, 1080⟩] 1 = Except.ok ⟨1920, 1080⟩ :=
  ⟨rfl, rfl, rfl⟩

/-- C5: with 10 payloads pending in the capacity-10 queue, a further `put`
returns immediately with `Full` (the frame is dropped, the queue is
unchanged, the producer is not blocked beyond its timeout), the 10 pending
payloads are exactly the 10 that were enqueued, in enqueue order, and
draining delivers exactly those 10 to the consumer in that same order. -/
theorem queue_backpressure (xs : List FramePayload) (y : FramePayload)
    (h : xs.length = 10) :
    (qput 10 xs y).2 = false ∧
    (qput 10 xs y).1 = xs ∧
    qputAll 10 [] xs = xs ∧
    qdrain xs = xs := by
  refine ⟨?_, ?_, ?_, qdrain_eq xs⟩
  · simp [qput, h]
  · simp [qput, h]
  · rw [qputAll_eq]
    simp only [List.length_nil, Nat.sub_zero, List.nil_append]
    exact List.take_of_length_le (by omega)

theorem queue_backpressure_witness :
    ((List.replicate 10 (⟨("x")⟩ : FramePayload)).length = 10) ∧
    ((qput 10 (List.replicate 10 (⟨("x")⟩ : FramePayload)) ⟨("y")⟩).2 = false ∧
     (qput 10 (List.replicate 10 (⟨("x")⟩ : FramePayload)) ⟨("y")⟩).1 =
       List.replicate 10 (⟨("x")⟩ : FramePayload) ∧
     qputAll 10 [] (List.replicate 10 (⟨("x")⟩ : FramePayload)) =
       List.replicate 10 (⟨("x")⟩ : FramePayload) ∧
     qdrain (List.replicate 10 (⟨("x")⟩ : FramePayload)) =
       List.replicate 10 (⟨("x")⟩ : FramePayload)) :=
  ⟨rfl, queue_backpressure (List.replicate 10 ⟨("x")⟩) ⟨("y")⟩ rfl⟩

/-- C6 counterexample: the input-validation section accepts the digit
string `"0"` as the byte budget, yielding the non-positive budget 0 with
no error; a non-digit display input such as `"-3"` is silently replaced by
the default display 1; and display input `"0"` is accepted as display 0 at
this stage.  All three violate the claim that every such configuration
fails fast with a validation error. -/
theorem config_validation_counterexample :
    mainConfig ⟨("k").data, ("0").data, ("1").data, ("u").data⟩ =
      Except.ok ⟨("k").data, 0, 1, ("u").data⟩ ∧
    ¬ (0 : Nat) > 0 ∧
    mainConfig ⟨("k").data, ("300000").data, ("-3").data, ("u").data⟩ =
      Except.ok ⟨("k").data, 300000, 1, ("u").data⟩ ∧
    mainConfig ⟨("k").data, ("300000").data, ("0").data, ("u").data⟩ =
      Except.ok ⟨("k").data, 300000, 0, ("u").data⟩ :=
  ⟨rfl, by decide, rfl, rfl⟩

/-- C6 amended: every configuration the validation section accepts has a
nonempty (stripped) session key and username and a digit-string byte
budget — empty key, empty username and non-digit budget input all fail
fast before any thread is launched — but the budget may be the non-positive
value 0 (digit string `"0"`), and the display index is not validated here:
a non-digit display input is silently replaced by the default 1 (display 0
is only rejected later by the monitor-range check, still before threads
start). -/
theorem config_validation_amended (inp : RawInputs) (cfg : Config)
    (hok : mainConfig inp = Except.ok cfg) :
    cfg.screenKey = pyStrip inp.screenKey ∧ cfg.screenKey ≠ [] ∧
    cfg.robloxUsername = pyStrip inp.robloxUsername ∧ cfg.robloxUsername ≠ [] ∧
    pyIsDigit (pyStrip inp.maxJsonInput) = true ∧
    cfg.maxJsonBytes = strToNat (pyStrip inp.maxJsonInput) ∧
    cfg.monitorNum =
      (if pyIsDigit (pyStrip inp.monitorInput) then
        strToNat (pyStrip inp.monitorInput)
       else 1) := by
  simp only [mainConfig] at hok
  split at hok
  · exact absurd hok (by simp)
  · split at hok
    · split at hok
      · exact absurd hok (by simp)
      · rename_i hkey hdigit huser
        cases hok
        exact ⟨rfl, hkey, rfl, huser, hdigit, rfl, rfl⟩
    · exact absurd hok (by simp)

theorem config_validation_amended_witness :
    (mainConfig ⟨("k").data, ("0").data, ("zz").data, ("u").data⟩ =
      Except.ok ⟨("k").data, 0, 1, ("u").data⟩) ∧
    ((⟨("k").data, 0, 1, ("u").data⟩ : Config).screenKey =
        pyStrip (("k").data) ∧
      (⟨("k").data, 0, 1, ("u").data⟩ : Config).screenKey ≠ [] ∧
      (⟨("k").data, 0, 1, ("u").data⟩ : Config).robloxUsername =
        pyStrip (("u").data) ∧
      (⟨("k").data, 0, 1, ("u").data⟩ : Config).robloxUsername ≠ [] ∧
      pyIsDigit (pyStrip (("0").data)) = true ∧
      (⟨("k").data, 0, 1, ("u").data⟩ : Config).maxJsonBytes =
        strToNat (pyStrip (("0").data)) ∧
      (⟨("k").data, 0, 1, ("u").data⟩ : Config).monitorNum =
        (if pyIsDigit (pyStrip (("zz").data)) then
          strToNat (pyStrip (("zz").data))
         else 1)) :=
  ⟨rfl, config_validation_amended ⟨("k").data, ("0").data, ("zz").data, ("u").data⟩
    ⟨("k").data, 0, 1, ("u").data⟩ rfl⟩

/-- C9: the frame encoder is deterministic and side-effect free — two
invocations at ambient states agreeing on the clock (the timestamp source)
produce identical envelope JSON regardless of any other ambient state, and
neither invocation changes the ambient state. -/
theorem frameEncoder_deterministic (w1 w2 : World) (img : Raster)
    (pc_name roblox_username : String) (ht : w1.nowMillis = w2.nowMillis) :
    (capture_screen_to_json w1 img pc_name roblox_username).1 =
      (capture_screen_to_json w2 img pc_name roblox_username).1 ∧
    (capture_screen_to_json w1 img pc_name roblox_username).2 = w1 ∧
    (capture_screen_to_json w2 img pc_name roblox_username).2 = w2 := by
  refine ⟨?_, rfl, rfl⟩
  simp [capture_screen_to_json, imageData, ht]

theorem frameEncoder_deterministic_witness :
    ((⟨123456, 0⟩ : World).nowMillis = (⟨123456, 77⟩ : World).nowMillis) ∧
    ((capture_screen_to_json ⟨123456, 0⟩ ⟨1, 1, [1, 2, 3, 4]⟩ ("PC1") ("tester")).1 =
      (capture_screen_to_json ⟨123456, 77⟩ ⟨1, 1, [1, 2, 3, 4]⟩ ("PC1") ("tester")).1 ∧
     (capture_screen_to_json ⟨123456, 0⟩ ⟨1, 1, [1, 2, 3, 4]⟩ ("PC1") ("tester")).2 =
       ⟨123456, 0⟩ ∧
     (capture_screen_to_json ⟨123456, 77⟩ ⟨1, 1, [1, 2, 3, 4]⟩ ("PC1") ("tester")).2 =
       ⟨123456, 77⟩) :=
  ⟨rfl, frameEncoder_deterministic ⟨123456, 0⟩ ⟨123456, 77⟩ ⟨1, 1, [1, 2, 3, 4]⟩
    ("PC1") ("tester") rfl⟩

/-- C7: for a well-formed raster in normalized form (the encoder's input
contract: the alpha normalization is a no-op on it), base64-decoding the
envelope's `pixels` field yields exactly `width*height*4` bytes equal to
the raster's raw RGBA buffer. -/
theorem frameEncoder_roundtrip (w : World) (img : Raster)
    (pc_name roblox_username : String)
    (hlen : img.pixels.length = img.width * img.height * 4)
    (hbytes : ∀ b ∈ img.pixels, b < 256)
    (hnorm : alphaNormalize img.pixels = img.pixels) :
    b64decode ((imageData w img pc_name roblox_username).1.pixels) = img.pixels ∧
    (b64decode ((imageData w img pc_name roblox_username).1.pixels)).length =
      img.width * img.height * 4 := by
  have e : (imageData w img pc_name roblox_username).1.pixels =
      b64encode img.pixels := by
    simp [imageData, hnorm]
  rw [e, b64decode_b64encode img.pixels hbytes]
  exact ⟨rfl, hlen⟩

theorem frameEncoder_roundtrip_witness :
    (([1, 2, 3, 4] : List Nat).length = 1 * 1 * 4) ∧
    (b64decode ((imageData ⟨0, 0⟩ ⟨1, 1, [1, 2, 3, 4]⟩ ("PC1") ("tester")).1.pixels) =
      [1, 2, 3, 4] ∧
     (b64decode ((imageData ⟨0, 0⟩ ⟨1, 1, [1, 2, 3, 4]⟩ ("PC1") ("tester")).1.pixels)).length =
      1 * 1 * 4) :=
  ⟨rfl, frameEncoder_roundtrip ⟨0, 0⟩ ⟨1, 1, [1, 2, 3, 4]⟩ ("PC1") ("tester")
    rfl (by decide) rfl⟩

/-- C10: with at most the queue capacity of frames in flight, the elements
the producer places on the queue are exactly the pre-built payload objects
`⟨"frame" := envelope-JSON⟩` — one per captured frame, wrapped before the
enqueue — and the bodies the consumer PUTs are, in FIFO order, exactly the
compact JSON serialization of those payloads: the scaled, alpha-normalized,
serialized envelope wrapped as `{"frame": ...}`, with the consumer applying
no transformation beyond `send_request`'s own serialization. -/
theorem producer_consumer_envelope (resample : Raster → Nat → Nat → Raster)
    (max_pixels : Nat) (pc_name roblox_username : String)
    (frames : List (World × Raster)) (hlen : frames.length ≤ 10) :
    qputAll 10 []
        (frames.map (capture_iteration resample max_pixels pc_name roblox_username)) =
      frames.map (capture_iteration resample max_pixels pc_name roblox_username) ∧
    (qdrain (qputAll 10 []
        (frames.map (capture_iteration resample max_pixels pc_name roblox_username)))).map
        send_frames_body =
      frames.map (fun wr =>
        ("\x7b\"frame\":") ++
          jsonDumpsString
            ((capture_screen_to_json wr.1 (scaleFrame resample max_pixels wr.2)
              pc_name roblox_username).1) ++ ("\x7d")) := by
  have hq : qputAll 10 []
      (frames.map (capture_iteration resample max_pixels pc_name roblox_username)) =
      frames.map (capture_iteration resample max_pixels pc_name roblox_username) := by
    rw [qputAll_eq]
    simp only [List.length_nil, Nat.sub_zero, List.nil_append]
    exact List.take_of_length_le (by simpa using hlen)
  refine ⟨hq, ?_⟩
  rw [hq, qdrain_eq, List.map_map]
  rfl

theorem producer_consumer_envelope_witness :
    (([(⟨⟨5, 0⟩, ⟨1, 1, [1, 2, 3, 4]⟩⟩)] : List (World × Raster)).length ≤ 10) ∧
    (qputAll 10 []
        (([(⟨⟨5, 0⟩, ⟨1, 1, [1, 2, 3, 4]⟩⟩)] : List (World × Raster)).map
          (capture_iteration (fun r _ _ => r) 100 ("PC1") ("tester"))) =
      ([(⟨⟨5, 0⟩, ⟨1, 1, [1, 2, 3, 4]⟩⟩)] : List (World × Raster)).map
        (capture_iteration (fun r _ _ => r) 100 ("PC1") ("tester")) ∧
    (qdrain (qputAll 10 []
        (([(⟨⟨5, 0⟩, ⟨1, 1, [1, 2, 3, 4]⟩⟩)] : List (World × Raster)).map
          (capture_iteration (fun r _ _ => r) 100 ("PC1") ("tester"))))).map
        send_frames_body =
      ([(⟨⟨5, 0⟩, ⟨1, 1, [1, 2, 3, 4]⟩⟩)] : List (World × Raster)).map
        (fun wr =>
          ("\x7b\"frame\":") ++
            jsonDumpsString
              ((capture_screen_to_json wr.1 (scaleFrame (fun r _ _ => r) 100 wr.2)
                ("PC1") ("tester")).1) ++ ("\x7d"))) :=
  ⟨by decide,
   producer_consumer_envelope (fun r _ _ => r) 100 ("PC1") ("tester")
     [(⟨⟨5, 0⟩, ⟨1, 1, [1, 2, 3, 4]⟩⟩)] (by decide)⟩

theorem nat_cast_div_lt_succ (a t : Nat) (ht : 0 < t) :
    (a : ℝ) / t < ((a / t : ℕ) : ℝ) + 1 := by
  have h := Nat.lt_mul_div_succ a ht
  have htR : (0 : ℝ) < t := by exact_mod_cast ht
  rw [div_lt_iff₀ htR]
  calc (a : ℝ) < ((t * (a / t + 1) : ℕ) : ℝ) := by exact_mod_cast h
    _ = (((a / t : ℕ) : ℝ) + 1) * t := by push_cast; ring

/-- Each scaled dimension is the exact aspect-preserving value
`x * √(budget / totalPixels)` rounded down: within one pixel below it. -/
theorem dim_sqrt_bounds (b x T : Nat) (hT : 0 < T) :
    ((Nat.sqrt ((x * x * b) / T) : ℕ) : ℝ) ≤ (x : ℝ) * Real.sqrt ((b : ℝ) / T) ∧
    (x : ℝ) * Real.sqrt ((b : ℝ) / T) <
      ((Nat.sqrt ((x * x * b) / T) : ℕ) : ℝ) + 1 := by
  have hTR : (0 : ℝ) < T := by exact_mod_cast hT
  have hbT : (0 : ℝ) ≤ (b : ℝ) / T := by positivity
  have hxs : (x : ℝ) * Real.sqrt ((b : ℝ) / T) =
      Real.sqrt (((x * x * b : ℕ) : ℝ) / T) := by
    rw [show ((x * x * b : ℕ) : ℝ) / T = ((x : ℝ)) ^ 2 * ((b : ℝ) / T) by
        push_cast; ring,
      Real.sqrt_mul (by positivity), Real.sqrt_sq (by positivity)]
  constructor
  · rw [hxs]
    rw [Real.le_sqrt (by positivity) (by positivity)]
    calc ((Nat.sqrt ((x * x * b) / T) : ℕ) : ℝ) ^ 2
        = ((Nat.sqrt ((x * x * b) / T) * Nat.sqrt ((x * x * b) / T) : ℕ) : ℝ) := by
          push_cast; ring
      _ ≤ (((x * x * b) / T : ℕ) : ℝ) := by
          exact_mod_cast Nat.sqrt_le ((x * x * b) / T)
      _ ≤ ((x * x * b : ℕ) : ℝ) / T := Nat.cast_div_le
  · rw [hxs]
    rw [Real.sqrt_lt' (by positivity)]
    calc ((x * x * b : ℕ) : ℝ) / T
        < (((x * x * b) / T : ℕ) : ℝ) + 1 := nat_cast_div_lt_succ _ _ hT
      _ ≤ (((Nat.sqrt ((x * x * b) / T) : ℕ) : ℝ) + 1) ^ 2 := by
          have h := Nat.lt_succ_sqrt ((x * x * b) / T)
          have : ((x * x * b) / T : ℕ) + 1 ≤
              (Nat.sqrt ((x * x * b) / T) + 1) * (Nat.sqrt ((x * x * b) / T) + 1) := h
          calc (((x * x * b) / T : ℕ) : ℝ) + 1
              ≤ (((Nat.sqrt ((x * x * b) / T) + 1) *
                  (Nat.sqrt ((x * x * b) / T) + 1) : ℕ) : ℝ) := by exact_mod_cast this
            _ = (((Nat.sqrt ((x * x * b) / T) : ℕ) : ℝ) + 1) ^ 2 := by push_cast; ring

/-- The product of the unclamped scaled dimensions never exceeds the
budget. -/
theorem scaled_sqrt_mul_le (b w h : Nat) (hw : 0 < w) (hh : 0 < h) :
    Nat.sqrt ((w * w * b) / (w * h)) * Nat.sqrt ((h * h * b) / (w * h)) ≤ b := by
  have hT : 0 < w * h := Nat.mul_pos hw hh
  have h1 := Nat.sqrt_le ((w * w * b) / (w * h))
  have h2 := Nat.sqrt_le ((h * h * b) / (w * h))
  have h3 : ((w * w * b) / (w * h)) * ((h * h * b) / (w * h)) ≤
      (w * w * b) * (h * h * b) / ((w * h) * (w * h)) :=
    Nat.div_mul_div_le _ _ _ _
  have h4 : (w * w * b) * (h * h * b) / ((w * h) * (w * h)) = b * b := by
    rw [show (w * w * b) * (h * h * b) = ((w * h) * (w * h)) * (b * b) by ring]
    exact Nat.mul_div_cancel_left _ (Nat.mul_pos hT hT)
  refine Nat.mul_self_le_mul_self_iff.mp ?_
  calc (Nat.sqrt ((w * w * b) / (w * h)) * Nat.sqrt ((h * h * b) / (w * h))) *
        (Nat.sqrt ((w * w * b) / (w * h)) * Nat.sqrt ((h * h * b) / (w * h)))
      = (Nat.sqrt ((w * w * b) / (w * h)) * Nat.sqrt ((w * w * b) / (w * h))) *
        (Nat.sqrt ((h * h * b) / (w * h)) * Nat.sqrt ((h * h * b) / (w * h))) := by ring
    _ ≤ ((w * w * b) / (w * h)) * ((h * h * b) / (w * h)) := Nat.mul_le_mul h1 h2
    _ ≤ (w * w * b) * (h * h * b) / ((w * h) * (w * h)) := h3
    _ = b * b := h4

/-- C1 counterexample: a 1×100 raster against a pixel budget of 4 exceeds
the budget, and FrameScaler computes output dimensions 1×20 — the
`max(1, ...)` clamp on the collapsed width lets the output pixel count
(20) exceed the budget (4), falsifying the claim's `width*height ≤ budget`
clause. -/
theorem frameScaler_budget_counterexample :
    4 < 1 * 100 ∧
    scaledDims 4 1 100 = (1, 20) ∧
    ¬ (scaledDims 4 1 100).1 * (scaledDims 4 1 100).2 ≤ 4 := by
  have hA : Nat.sqrt (1 * 1 * 4 / (1 * 100)) = 0 := by
    rw [show 1 * 1 * 4 / (1 * 100) = 0 by norm_num, Nat.sqrt_zero]
  have hB : Nat.sqrt (100 * 100 * 4 / (1 * 100)) = 20 := by
    rw [show 100 * 100 * 4 / (1 * 100) = 400 by norm_num]
    exact (Nat.eq_sqrt.mpr (by omega)).symm
  have e : scaledDims 4 1 100 = (1, 20) := by
    rw [scaledDims, if_pos (by norm_num), hA, hB]
    simp
  refine ⟨by norm_num, e, ?_⟩
  rw [e]
  norm_num

/-- C1 amended: for every over-budget input whose exact scaled dimensions
do not collapse below one pixel (no `max(1, ...)` clamping fires — the
situation the counterexample exhibits), FrameScaler's output satisfies
`width*height ≤ budget`, both dimensions are at least 1, and each output
dimension is within one pixel below the exact aspect-preserving value
`dim * √(budget/totalPixels)` computed with one shared scale factor. -/
theorem frameScaler_budget_amended (max_pixels w h : Nat)
    (hw : 0 < w) (hh : 0 < h) (hover : max_pixels < w * h)
    (h1 : 1 ≤ Nat.sqrt ((w * w * max_pixels) / (w * h)))
    (h2 : 1 ≤ Nat.sqrt ((h * h * max_pixels) / (w * h))) :
    (scaledDims max_pixels w h).1 * (scaledDims max_pixels w h).2 ≤ max_pixels ∧
    1 ≤ (scaledDims max_pixels w h).1 ∧
    1 ≤ (scaledDims max_pixels w h).2 ∧
    (((scaledDims max_pixels w h).1 : ℕ) : ℝ) ≤
      (w : ℝ) * Real.sqrt ((max_pixels : ℝ) / ((w * h : ℕ) : ℝ)) ∧
    (w : ℝ) * Real.sqrt ((max_pixels : ℝ) / ((w * h : ℕ) : ℝ)) <
      (((scaledDims max_pixels w h).1 : ℕ) : ℝ) + 1 ∧
    (((scaledDims max_pixels w h).2 : ℕ) : ℝ) ≤
      (h : ℝ) * Real.sqrt ((max_pixels : ℝ) / ((w * h : ℕ) : ℝ)) ∧
    (h : ℝ) * Real.sqrt ((max_pixels : ℝ) / ((w * h : ℕ) : ℝ)) <
      (((scaledDims max_pixels w h).2 : ℕ) : ℝ) + 1 := by
  have hT : 0 < w * h := Nat.mul_pos hw hh
  have e : scaledDims max_pixels w h =
      (Nat.sqrt ((w * w * max_pixels) / (w * h)),
       Nat.sqrt ((h * h * max_pixels) / (w * h))) := by
    rw [scaledDims, if_pos hover, Nat.max_eq_right h1, Nat.max_eq_right h2]
  have hwb := dim_sqrt_bounds max_pixels w (w * h) hT
  have hhb := dim_sqrt_bounds max_pixels h (w * h) hT
  rw [e]
  exact ⟨scaled_sqrt_mul_le max_pixels w h hw hh, h1, h2,
    hwb.1, hwb.2, hhb.1, hhb.2⟩

theorem frameScaler_budget_amended_witness :
    (0 < 4 ∧ 0 < 2 ∧ 7 < 4 * 2 ∧
      1 ≤ Nat.sqrt ((4 * 4 * 7) / (4 * 2)) ∧
      1 ≤ Nat.sqrt ((2 * 2 * 7) / (4 * 2))) ∧
    ((scaledDims 7 4 2).1 * (scaledDims 7 4 2).2 ≤ 7 ∧
     1 ≤ (scaledDims 7 4 2).1 ∧
     1 ≤ (scaledDims 7 4 2).2 ∧
     (((scaledDims 7 4 2).1 : ℕ) : ℝ) ≤
       (4 : ℝ) * Real.sqrt ((7 : ℝ) / ((4 * 2 : ℕ) : ℝ)) ∧
     (4 : ℝ) * Real.sqrt ((7 : ℝ) / ((4 * 2 : ℕ) : ℝ)) <
       (((scaledDims 7 4 2).1 : ℕ) : ℝ) + 1 ∧
     (((scaledDims 7 4 2).2 : ℕ) : ℝ) ≤
       (2 : ℝ) * Real.sqrt ((7 : ℝ) / ((4 * 2 : ℕ) : ℝ)) ∧
     (2 : ℝ) * Real.sqrt ((7 : ℝ) / ((4 * 2 : ℕ) : ℝ)) <
       (((scaledDims 7 4 2).2 : ℕ) : ℝ) + 1) := by
  have hA : 1 ≤ Nat.sqrt ((4 * 4 * 7) / (4 * 2)) := Nat.le_sqrt.mpr (by norm_num)
  have hB : 1 ≤ Nat.sqrt ((2 * 2 * 7) / (4 * 2)) := Nat.le_sqrt.mpr (by norm_num)
  exact ⟨⟨by norm_num, by norm_num, by norm_num, hA, hB⟩,
    frameScaler_budget_amended 7 4 2 (by norm_num) (by norm_num) (by norm_num) hA hB⟩

end Screenshare
